import Mathlib

set_option maxRecDepth 100000
set_option linter.unusedVariables false

/-!
Shallow embedding of the FeatureFlow feature-flag platform (TypeScript).

Embedded modules:
* `src/data-plane/evaluation-server.ts` — the `RuleEngine` class (pure
  decision logic, percentage bucketing via an MD5 fingerprint), the
  `EvaluationService` class (cache → store → engine orchestration) and the
  HTTP handlers for `POST /evaluate` and `POST /evaluate/batch`.
* `src/control-plane/control-plane-server.ts` — the
  `PUT /api/flags/:flagKey/environments/:environment` mutation handler and
  the cache-invalidation step it performs.
* the repository module (`FlagRepository.updateFlagConfig`), embedded as a
  pure transformer on the per-(flag, environment) database state.

Conventions: JavaScript numbers that the code treats as integers are `Int`
(database columns with integral CHECK constraints) or `Nat` (hash values);
the single `Math.random()` draw in weighted variant selection is passed in
as an explicit rational parameter `r`; JavaScript's `undefined`/`null` for
optional fields is `Option`; thrown exceptions are `Except`.  `Date`-valued
bookkeeping fields (`created_at`, `updated_at`, response `timestamp`) carry
no decision-relevant information and are omitted from the records.
-/

/-! ## JavaScript string primitives used by the rule engine -/

/-- ASCII lowercasing, the effect of `String.prototype.toLowerCase` on the
ASCII inputs the engine compares. -/
def toLowerAscii (s : String) : String :=
  String.mk (s.data.map fun c =>
    if 'A' ≤ c ∧ c ≤ 'Z' then Char.ofNat (c.toNat + 32) else c)

/-- Whitespace characters removed by `String.prototype.trim` (the common
ASCII ones). -/
def isWsChar (c : Char) : Bool := c = ' ' ∨ c = '\t' ∨ c = '\n' ∨ c = '\r'

/-- `s.trim()` on the character list. -/
def trimChars (cs : List Char) : List Char :=
  ((cs.dropWhile isWsChar).reverse.dropWhile isWsChar).reverse

/-- Split at commas, keeping empty segments, as
`String.prototype.split(',')` does. -/
def splitCommaChars : List Char → List (List Char)
  | [] => [[]]
  | c :: cs =>
    match splitCommaChars cs with
    | [] => [[]]
    | seg :: segs => if c = ',' then [] :: seg :: segs else (c :: seg) :: segs

/-- The effect of `value.split(',').map(v => v.trim())`. -/
def splitCommaTrim (s : String) : List String :=
  (splitCommaChars s.data).map (fun cs => String.mk (trimChars cs))

/-- Whether `pat` occurs as a leading segment of `l`
(`String.prototype.startsWith` on the underlying characters). -/
def listLeads : List Char → List Char → Bool
  | [], _ => true
  | _ :: _, [] => false
  | a :: as, b :: bs => a = b && listLeads as bs

/-- Whether `pat` occurs as a contiguous segment of `l`
(`String.prototype.includes`). -/
def listSeg (pat : List Char) : List Char → Bool
  | [] => listLeads pat []
  | l@(_ :: bs) => listLeads pat l || listSeg pat bs

/-- `haystack.includes(needle)` for strings. -/
def strIncludes (haystack needle : String) : Bool :=
  listSeg needle.data haystack.data

/-- `s.startsWith(p)` for strings. -/
def strStarts (s p : String) : Bool :=
  listLeads p.data s.data

/-- `s.endsWith(p)` for strings. -/
def strEnds (s p : String) : Bool :=
  listLeads p.data.reverse s.data.reverse

/-- Decimal-digit test. -/
def isDigitChar (c : Char) : Bool := '0' ≤ c ∧ c ≤ '9'

/-- Numeric value of a digit run, most significant first. -/
def digitsVal (ds : List Char) : Nat :=
  ds.foldl (fun acc c => 10 * acc + (c.toNat - '0'.toNat)) 0

/-- JavaScript `parseFloat` restricted to the plain decimal literals the
rule engine compares (optional sign, digits, optional fraction; leading
whitespace skipped, trailing junk ignored; scientific notation is not
modelled).  `none` is `NaN`. -/
def parseFloatQ (s : String) : Option ℚ :=
  let cs := s.data.dropWhile (fun c => c = ' ' ∨ c = '\t' ∨ c = '\n' ∨ c = '\r')
  let (sign, cs) : ℚ × List Char :=
    match cs with
    | '-' :: rest => (-1, rest)
    | '+' :: rest => (1, rest)
    | _ => (1, cs)
  let intPart := cs.takeWhile isDigitChar
  let rest := cs.dropWhile isDigitChar
  let fracPart :=
    match rest with
    | '.' :: rest' => rest'.takeWhile isDigitChar
    | _ => []
  if intPart = [] ∧ fracPart = [] then none
  else
    some (sign * ((digitsVal intPart : ℚ) +
      (digitsVal fracPart : ℚ) / (10 : ℚ) ^ fracPart.length))

/-- JavaScript truthiness of an optional string (`undefined`, `null` and
`""` are falsy). -/
def falsyStr : Option String → Bool
  | none => true
  | some s => s = ""

/-! ## Data model (`src/types`) -/

/-- `FeatureFlag` row (bookkeeping timestamps omitted). -/
structure FeatureFlag where
  id : String
  key : String
  name : String
  flag_type : String
  is_active : Bool
deriving DecidableEq, Repr

/-- `FlagConfig` row for one (flag, environment); `config_data` is the
opaque JSON blob, kept as its serialized text. -/
structure FlagConfig where
  id : String
  flag_id : String
  environment_id : String
  is_enabled : Bool
  default_variant : String
  rollout_percentage : Int
  config_data : String
deriving DecidableEq, Repr

/-- `FlagVariant` row. -/
structure FlagVariant where
  id : String
  flag_id : String
  key : String
  value : String
  weight : Int
deriving DecidableEq, Repr

/-- `RolloutRule` row; optional columns are `Option`. -/
structure RolloutRule where
  id : String
  flag_config_id : String
  rule_type : String
  attribute_name : Option String
  operator : Option String
  attribute_value : Option String
  percentage : Option Int
  variant_key : Option String
  priority : Int
deriving DecidableEq, Repr

/-- `UserContext`; attribute maps are association lists (first binding
wins on lookup; the sources build them from JSON objects with distinct
keys).  Attribute values are the strings the engine compares. -/
structure UserContext where
  user_id : Option String
  attributes : List (String × String)
  custom_attributes : List (String × String)
deriving DecidableEq, Repr

/-- `EvaluationContext` handed to the rule engine. -/
structure EvaluationContext where
  user_context : UserContext
  flag_config : FlagConfig
  rules : List RolloutRule
  variants : List FlagVariant
  environment : String
deriving DecidableEq, Repr

/-- `RuleEvaluationResult`. -/
structure RuleEvaluationResult where
  matched : Bool
  variant_key : Option String
  reason : String
  rule_id : Option String
deriving DecidableEq, Repr

/-- The decision record returned by `RuleEngine.evaluateFlag`. -/
structure Decision where
  enabled : Bool
  variant : String
  reason : String
deriving DecidableEq, Repr

deriving instance DecidableEq for Except

/-! ## Fingerprint (`RuleEngine.generateUserHash`)

The source computes `crypto.createHash('md5').update(userId + ":" + salt)`,
takes the first 8 hex characters of the digest and parses them base-16.
The first 8 hex characters print the first 4 digest bytes in order, so the
parsed value is the big-endian value of those bytes; the embedding
implements MD5 over the UTF-8 bytes of the combined string and reads the
first 4 digest bytes big-endian. -/

/-- UTF-8 encoding of one character (the encoding `hash.update` applies to
a JavaScript string). -/
def charUtf8 (c : Char) : List Nat :=
  let n := c.toNat
  if n < 128 then [n]
  else if n < 2048 then [192 + n / 64, 128 + n % 64]
  else if n < 65536 then [224 + n / 4096, 128 + (n / 64) % 64, 128 + n % 64]
  else [240 + n / 262144, 128 + (n / 4096) % 64, 128 + (n / 64) % 64, 128 + n % 64]

/-- UTF-8 bytes of a string. -/
def strBytes (s : String) : List Nat :=
  s.data.foldr (fun c acc => charUtf8 c ++ acc) []

/-- Truncation to 32 bits. -/
def u32 (n : Nat) : Nat := n % 4294967296

/-- 32-bit left rotation. -/
def rotl32 (x s : Nat) : Nat :=
  u32 ((x <<< s) ||| (x >>> (32 - s)))

/-- 32-bit complement. -/
def not32 (x : Nat) : Nat := 4294967295 ^^^ x

/-- MD5 round constants `K[i] = floor(abs(sin(i+1)) * 2^32)`. -/
def md5K : List Nat := [
    3614090360, 3905402710, 606105819, 3250441966, 4118548399, 1200080426, 2821735955, 4249261313,
    1770035416, 2336552879, 4294925233, 2304563134, 1804603682, 4254626195, 2792965006, 1236535329,
    4129170786, 3225465664, 643717713, 3921069994, 3593408605, 38016083, 3634488961, 3889429448,
    568446438, 3275163606, 4107603335, 1163531501, 2850285829, 4243563512, 1735328473, 2368359562,
    4294588738, 2272392833, 1839030562, 4259657740, 2763975236, 1272893353, 4139469664, 3200236656,
    681279174, 3936430074, 3572445317, 76029189, 3654602809, 3873151461, 530742520, 3299628645,
    4096336452, 1126891415, 2878612391, 4237533241, 1700485571, 2399980690, 4293915773, 2240044497,
    1873313359, 4264355552, 2734768916, 1309151649, 4149444226, 3174756917, 718787259, 3951481745]

/-- MD5 per-round left-rotation amounts. -/
def md5S : List Nat := [
    7, 12, 17, 22, 7, 12, 17, 22, 7, 12, 17, 22, 7, 12, 17, 22,
    5, 9, 14, 20, 5, 9, 14, 20, 5, 9, 14, 20, 5, 9, 14, 20,
    4, 11, 16, 23, 4, 11, 16, 23, 4, 11, 16, 23, 4, 11, 16, 23,
    6, 10, 15, 21, 6, 10, 15, 21, 6, 10, 15, 21, 6, 10, 15, 21]

/-- MD5 working state. -/
structure MD5State where
  a : Nat
  b : Nat
  c : Nat
  d : Nat
deriving DecidableEq, Repr

/-- MD5 initial state. -/
def md5Init : MD5State := ⟨1732584193, 4023233417, 2562383102, 271733878⟩

/-- Little-endian 32-bit word `g` of a 64-byte block. -/
def blockWord (block : List Nat) (g : Nat) : Nat :=
  block.getD (4 * g) 0 + 256 * block.getD (4 * g + 1) 0 +
    65536 * block.getD (4 * g + 2) 0 + 16777216 * block.getD (4 * g + 3) 0

/-- One of the 64 MD5 rounds on a block. -/
def md5Round (block : List Nat) (st : MD5State) (i : Nat) : MD5State :=
  let fg : Nat × Nat :=
    if i < 16 then ((st.b &&& st.c) ||| (not32 st.b &&& st.d), i)
    else if i < 32 then ((st.d &&& st.b) ||| (not32 st.d &&& st.c), (5 * i + 1) % 16)
    else if i < 48 then (st.b ^^^ st.c ^^^ st.d, (3 * i + 5) % 16)
    else (st.c ^^^ (st.b ||| not32 st.d), (7 * i) % 16)
  let tmp := u32 (fg.1 + st.a + md5K.getD i 0 + blockWord block fg.2)
  ⟨st.d, u32 (st.b + rotl32 tmp (md5S.getD i 0)), st.b, st.c⟩

/-- Process one 64-byte block. -/
def md5Block (st : MD5State) (block : List Nat) : MD5State :=
  let r := (List.range 64).foldl (md5Round block) st
  ⟨u32 (st.a + r.a), u32 (st.b + r.b), u32 (st.c + r.c), u32 (st.d + r.d)⟩

/-- Little-endian byte expansion of `n` over `k` bytes. -/
def toLE (n k : Nat) : List Nat :=
  (List.range k).map fun i => (n >>> (8 * i)) % 256

/-- MD5 padding: `0x80`, zeros to 56 mod 64, then the 64-bit little-endian
bit length. -/
def md5Pad (msg : List Nat) : List Nat :=
  let zeros := (119 - msg.length % 64) % 64
  msg ++ [128] ++ List.replicate zeros 0 ++ toLE (8 * msg.length) 8

/-- MD5 digest (16 bytes) of a byte string. -/
def md5Bytes (msg : List Nat) : List Nat :=
  let padded := md5Pad msg
  let final := (List.range (padded.length / 64)).foldl
    (fun st i => md5Block st ((padded.drop (64 * i)).take 64)) md5Init
  toLE final.a 4 ++ toLE final.b 4 ++ toLE final.c 4 ++ toLE final.d 4

/-- `RuleEngine.generateUserHash(userId, flagIdentifier)`: the base-16
value of the first 8 hex characters of `md5(userId + ":" + flagIdentifier)`,
i.e. the big-endian value of the first 4 digest bytes. -/
def generateUserHash (userId flagIdentifier : String) : Nat :=
  let digest := md5Bytes (strBytes (userId ++ ":" ++ flagIdentifier))
  16777216 * digest.getD 0 0 + 65536 * digest.getD 1 0 +
    256 * digest.getD 2 0 + digest.getD 3 0

example : md5Bytes (strBytes "abc") =
    [144, 1, 80, 152, 60, 210, 79, 176, 214, 150, 63, 125, 40, 225, 127, 114] := by
  decide

example : generateUserHash "u1" "flag-1" = 1703188560 := by decide

/-! ## Rule Engine (`src/data-plane` `RuleEngine` class)

`evaluateFlag` is embedded as `RuleEngine.evaluateFlag r ctx`, returning
the decision together with the evaluation context as it stands after the
call: the source runs `rules.sort(...)`, which reorders the caller's rules
array in place, so the returned context carries the sorted array.  `r` is
the `Math.random()` draw (a rational in `[0,1)`) consumed by
`selectVariantByWeight`. -/

namespace RuleEngine

/-- Stable insertion of a rule into a priority-sorted list: the inserted
rule goes before the first rule of equal or larger priority, matching the
stable `Array.prototype.sort((a, b) => a.priority - b.priority)`. -/
def insertByPriority (x : RolloutRule) : List RolloutRule → List RolloutRule
  | [] => [x]
  | y :: ys =>
    if x.priority ≤ y.priority then x :: y :: ys else y :: insertByPriority x ys

/-- Stable sort of the rules by ascending priority
(`rules.sort((a, b) => a.priority - b.priority)`). -/
def sortRules : List RolloutRule → List RolloutRule
  | [] => []
  | x :: xs => insertByPriority x (sortRules xs)

/-- `evaluatePercentageRule`: falsy or zero percentage never matches;
otherwise the user's bucket against the rule id is compared with the
percentage. -/
def evaluatePercentageRule (rule : RolloutRule) (userContext : UserContext) :
    RuleEvaluationResult :=
  if rule.percentage = none ∨ rule.percentage = some 0 then
    { matched := false, variant_key := none, reason := "zero_percentage", rule_id := none }
  else
    let userId := userContext.user_id.getD "anonymous"
    let percentage := (generateUserHash userId rule.id % 100 : Int)
    let matched := percentage < rule.percentage.getD 0
    { matched
      variant_key := rule.variant_key
      reason := if matched then "percentage_match" else "percentage_no_match"
      rule_id := some rule.id }

/-- Merged attribute lookup: `{ ...attributes, ...custom_attributes }`
followed by indexing, so a custom attribute shadows a base one. -/
def lookupAttr (userContext : UserContext) (name : String) : Option String :=
  match userContext.custom_attributes.lookup name with
  | some v => some v
  | none => userContext.attributes.lookup name

/-- `evaluateAttributeCondition`: operator dispatch on lowercased
strings. -/
def evaluateAttributeCondition (userValue : String) (operator : String)
    (expectedValue : String) : Bool :=
  let userStr := toLowerAscii userValue
  let expectedStr := toLowerAscii expectedValue
  if operator = "equals" then userStr = expectedStr
  else if operator = "not_equals" then userStr ≠ expectedStr
  else if operator = "in" then (splitCommaTrim expectedStr).contains userStr
  else if operator = "not_in" then ¬ (splitCommaTrim expectedStr).contains userStr
  else if operator = "contains" then strIncludes userStr expectedStr
  else if operator = "starts_with" then strStarts userStr expectedStr
  else if operator = "ends_with" then strEnds userStr expectedStr
  else if operator = "greater_than" then
    match parseFloatQ userStr, parseFloatQ expectedStr with
    | some userNum, some expectedNum => userNum > expectedNum
    | _, _ => false
  else if operator = "less_than" then
    match parseFloatQ userStr, parseFloatQ expectedStr with
    | some userNum, some expectedNum => userNum < expectedNum
    | _, _ => false
  else false

/-- `evaluateAttributeRule`: a falsy name, operator or value invalidates
the rule; a missing user attribute never matches. -/
def evaluateAttributeRule (rule : RolloutRule) (userContext : UserContext) :
    RuleEvaluationResult :=
  if falsyStr rule.attribute_name ∨ falsyStr rule.operator ∨ falsyStr rule.attribute_value then
    { matched := false, variant_key := none, reason := "invalid_attribute_rule", rule_id := none }
  else
    match lookupAttr userContext (rule.attribute_name.getD "") with
    | none =>
      { matched := false, variant_key := none, reason := "attribute_not_found", rule_id := none }
    | some userValue =>
      let matched := evaluateAttributeCondition userValue (rule.operator.getD "")
        (rule.attribute_value.getD "")
      { matched
        variant_key := rule.variant_key
        reason := if matched then "attribute_match" else "attribute_no_match"
        rule_id := some rule.id }

/-- `evaluateUserIdRule`: requires a truthy user id and rule value; the
comma-separated target list is matched case-sensitively. -/
def evaluateUserIdRule (rule : RolloutRule) (userContext : UserContext) :
    RuleEvaluationResult :=
  if falsyStr userContext.user_id ∨ falsyStr rule.attribute_value then
    { matched := false, variant_key := none, reason := "invalid_user_id_rule", rule_id := none }
  else
    let targetUserIds := splitCommaTrim (rule.attribute_value.getD "")
    let matched := targetUserIds.contains (userContext.user_id.getD "")
    { matched
      variant_key := rule.variant_key
      reason := if matched then "user_id_match" else "user_id_no_match"
      rule_id := some rule.id }

/-- `evaluateRule`: dispatch on `rule_type`; unknown types (including
`segment`) never match.  The `variants` argument is received and ignored,
as in the source. -/
def evaluateRule (rule : RolloutRule) (userContext : UserContext)
    (variants : List FlagVariant) : RuleEvaluationResult :=
  if rule.rule_type = "percentage" then evaluatePercentageRule rule userContext
  else if rule.rule_type = "attribute" then evaluateAttributeRule rule userContext
  else if rule.rule_type = "user_id" then evaluateUserIdRule rule userContext
  else { matched := false, variant_key := none, reason := "unknown_rule_type", rule_id := none }

/-- First matching rule in order, if any (the `for … of sortedRules`
loop). -/
def findFirstMatch (userContext : UserContext) (variants : List FlagVariant) :
    List RolloutRule → Option RuleEvaluationResult
  | [] => none
  | rule :: rest =>
    let ruleResult := evaluateRule rule userContext variants
    if ruleResult.matched then some ruleResult else findFirstMatch userContext variants rest

/-- `evaluatePercentageRollout`: the config-level rollout check used when
no rule matched. -/
def evaluatePercentageRollout (percentage : Int) (userContext : UserContext)
    (flagId : String) : RuleEvaluationResult :=
  if percentage = 0 then
    { matched := false, variant_key := none, reason := "zero_rollout", rule_id := none }
  else if percentage = 100 then
    { matched := true, variant_key := none, reason := "full_rollout", rule_id := none }
  else
    let userId := userContext.user_id.getD "anonymous"
    let userPercentage := (generateUserHash userId flagId % 100 : Int)
    let matched := userPercentage < percentage
    { matched
      variant_key := none
      reason := if matched then "rollout_match" else "rollout_no_match"
      rule_id := none }

/-- The synthesized boolean variant returned when a flag has no variant
rows. -/
def defaultTrueVariant : FlagVariant :=
  { id := "default", flag_id := "", key := "true", value := "true", weight := 100 }

/-- Walk of the cumulative-weight loop: first variant whose cumulative
weight is `≥` the draw (`random <= cumulativeWeight` in the source). -/
def pickByCumulativeWeight (random : ℚ) : List FlagVariant → Int → Option FlagVariant
  | [], _ => none
  | v :: vs, cum =>
    let cum' := cum + v.weight
    if random ≤ (cum' : ℚ) then some v else pickByCumulativeWeight random vs cum'

/-- `selectVariantByWeight` with the `Math.random()` draw `r` made
explicit: `random = r * totalWeight`. -/
def selectVariantByWeight (r : ℚ) (variants : List FlagVariant) : FlagVariant :=
  match variants with
  | [] => defaultTrueVariant
  | v₀ :: rest =>
    if rest = [] then v₀
    else
      let totalWeight : Int := (v₀ :: rest).foldl (fun s v => s + v.weight) 0
      if totalWeight = 0 then v₀
      else
        let random := r * (totalWeight : ℚ)
        (pickByCumulativeWeight random (v₀ :: rest) 0).getD v₀

/-- `RuleEngine.evaluateFlag`: the decision, paired with the evaluation
context as left by the call — the in-place `rules.sort` makes the context's
rules array the sorted one on every path that reaches the sort. -/
def evaluateFlag (r : ℚ) (context : EvaluationContext) :
    Decision × EvaluationContext :=
  if ¬ context.flag_config.is_enabled then
    ({ enabled := false
       variant := context.flag_config.default_variant
       reason := "flag_disabled" }, context)
  else
    let sortedRules := sortRules context.rules
    let context' := { context with rules := sortedRules }
    match findFirstMatch context.user_context context.variants sortedRules with
    | some ruleResult =>
      ({ enabled := true
         variant := ruleResult.variant_key.getD context.flag_config.default_variant
         reason := ruleResult.reason }, context')
    | none =>
      let rolloutResult := evaluatePercentageRollout context.flag_config.rollout_percentage
        context.user_context context.flag_config.flag_id
      if rolloutResult.matched then
        let selectedVariant := selectVariantByWeight r context.variants
        ({ enabled := true
           variant := selectedVariant.key
           reason := "percentage_rollout" }, context')
      else
        ({ enabled := false
           variant := context.flag_config.default_variant
           reason := "not_in_rollout" }, context')

/-- `validateContext`: in the typed embedding every record field is
present and the arrays are arrays, so of the five source checks only the
truthiness test on `context.environment` can fail. -/
def validateContext (context : EvaluationContext) : Bool :=
  ¬ context.environment = ""

end RuleEngine

/-! ## Evaluation Service (`EvaluationService` and the HTTP handlers)

The service orchestrates cache read → store read → context validation →
rule engine → response.  Effects are embedded as an `Infra` record of
outcomes: the cache read (whose internal `catch` already turns errors into
`null`, hence an `Option`), and the store read (whose exceptions reach the
service's catch-all, hence an `Except`).  The fire-and-forget cache write
and the async evaluation log have no influence on the response and carry
no state here. -/

/-- A JSON value as carried by `default_value` and the response `value`
(numbers are exact rationals; `null` is explicit; JSON objects and arrays
do not occur on the paths embedded here). -/
inductive EvalValue where
  | bool (b : Bool)
  | num (q : ℚ)
  | str (s : String)
  | null
deriving DecidableEq, Repr

/-- JavaScript truthiness of an `EvalValue`. -/
def jsTruthy : EvalValue → Bool
  | .bool b => b
  | .num q => q ≠ 0
  | .str s => s ≠ ""
  | .null => false

/-- The JavaScript expression `v || false` with `undefined` as `none`. -/
def jsOrFalse (o : Option EvalValue) : EvalValue :=
  let v := o.getD .null
  if jsTruthy v then v else .bool false

/-- `EvaluationRequest` body (`none` = field absent). -/
structure EvaluationRequest where
  flag_key : String
  user_context : UserContext
  environment : Option String
  default_value : Option EvalValue
deriving DecidableEq, Repr

/-- `EvaluationResponse` (timestamp omitted). -/
structure EvaluationResponse where
  flag_key : String
  value : EvalValue
  variant_key : String
  reason : String
deriving DecidableEq, Repr

/-- The pre-joined `{flag, config, variants, rules}` snapshot returned by
`FlagRepository.getFlagConfig` and cached per (flag, environment). -/
structure Snapshot where
  flag : FeatureFlag
  config : FlagConfig
  variants : List FlagVariant
  rules : List RolloutRule
deriving DecidableEq, Repr

/-- Outcomes of the infrastructure calls a single evaluation makes.
`cacheGet` already includes the service's internal error handling
(`getFlagFromCache` catches and returns `null`), so a cache fault and a
cache miss are both `none`; `storeGet` faults propagate. -/
structure Infra where
  cacheGet : String → Option Snapshot
  storeGet : String → String → Except Unit (Option Snapshot)

/-- The cache key `flag_config:<flag_key>:<environment>`. -/
def cacheKeyOf (flagKey environment : String) : String :=
  "flag_config:" ++ flagKey ++ ":" ++ environment

/-- The cache-then-store fetch of the snapshot (`getFlagFromCache`
followed on a miss by `flagRepository.getFlagConfig`); a store exception
propagates to the service's catch-all. -/
def fetchSnapshot (infra : Infra) (flagKey environment : String) :
    Except Unit (Option Snapshot) :=
  match infra.cacheGet (cacheKeyOf flagKey environment) with
  | some flagData => .ok (some flagData)
  | none => infra.storeGet flagKey environment

/-- The evaluation context the service builds from a request and the
fetched snapshot (lines building `evaluationContext` in
`EvaluationService.evaluateFlag`). -/
def serviceContext (req : EvaluationRequest) (flagData : Snapshot) :
    EvaluationContext :=
  { user_context := req.user_context
    flag_config := flagData.config
    rules := flagData.rules
    variants := flagData.variants
    environment := req.environment.getD "production" }

/-- `EvaluationService.evaluateFlag`.  The `createEvaluationResponse`
helper forwards its `value` argument untyped; on the engine path the
service passes `result.enabled`, on the miss/invalid paths the caller's
default, and in the catch-all `request.default_value || false`. -/
def evaluateFlagService (r : ℚ) (infra : Infra) (req : EvaluationRequest) :
    EvaluationResponse :=
  let environment := req.environment.getD "production"
  let default_value := req.default_value.getD (.bool false)
  match fetchSnapshot infra req.flag_key environment with
  | .error _ =>
    { flag_key := req.flag_key
      value := jsOrFalse req.default_value
      variant_key := "default"
      reason := "evaluation_error" }
  | .ok none =>
    { flag_key := req.flag_key
      value := default_value
      variant_key := "default"
      reason := "flag_not_found" }
  | .ok (some flagData) =>
    let evaluationContext := serviceContext req flagData
    if ¬ RuleEngine.validateContext evaluationContext then
      { flag_key := req.flag_key
        value := default_value
        variant_key := "default"
        reason := "invalid_context" }
    else
      let result := (RuleEngine.evaluateFlag r evaluationContext).1
      { flag_key := req.flag_key
        value := .bool result.enabled
        variant_key := result.variant
        reason := result.reason }

/-- `EvaluationService.evaluateBatch`: `requests.map(evaluateFlag)` with
`Promise.all`, which keeps positions; each element consumes its own
`Math.random()` stream, indexed here by position. -/
def evaluateBatchAux (draws : Nat → ℚ) (infra : Infra) :
    Nat → List EvaluationRequest → List EvaluationResponse
  | _, [] => []
  | i, req :: rest =>
    evaluateFlagService (draws i) infra req :: evaluateBatchAux draws infra (i + 1) rest

/-- Batch evaluation from position 0. -/
def evaluateBatch (draws : Nat → ℚ) (infra : Infra)
    (requests : List EvaluationRequest) : List EvaluationResponse :=
  evaluateBatchAux draws infra 0 requests

/-- The `POST /evaluate` handler: 400 when `flag_key` is falsy, otherwise
200 with the service response (`evaluateFlagService` is total, so the
handler's 500 catch is unreachable). -/
def postEvaluate (r : ℚ) (infra : Infra) (req : EvaluationRequest) :
    Nat × Option EvaluationResponse :=
  if req.flag_key = "" then (400, none)
  else (200, some (evaluateFlagService r infra req))

/-- The `POST /evaluate/batch` handler: 400 on more than 50 requests or on
any falsy `flag_key`, otherwise 200 with the batch results. -/
def postEvaluateBatch (draws : Nat → ℚ) (infra : Infra)
    (requests : List EvaluationRequest) : Nat × Option (List EvaluationResponse) :=
  if requests.length > 50 then (400, none)
  else if requests.any (fun req => req.flag_key = "") then (400, none)
  else (200, some (evaluateBatch draws infra requests))

/-! ## Spec-side typed translation (for comparison only)

`spec.md` §4.5 step 6 prescribes a typed translation of the decision:
boolean flags map `enabled`/`variant` to a boolean, other flag types look
up the chosen variant row and parse its value by flag type.  The following
definition follows those spec words (not the source) so the source
behaviour can be compared against it. -/

/-- The spec's typed translation of a `Decision` — §4.5 step 6: boolean is
`enabled ? (variant == "true") : default`, string is the variant row's raw
value, number parses the value, json is kept opaque as its raw text
(unparseable values fall back to the raw string). -/
def specTypedValue (flagType : String) (defaultValue : EvalValue)
    (d : Decision) (variants : List FlagVariant) : EvalValue :=
  if flagType = "boolean" then
    if d.enabled then .bool (d.variant = "true") else defaultValue
  else
    match variants.find? (fun v => v.key = d.variant) with
    | none => defaultValue
    | some row =>
      if flagType = "number" then
        match parseFloatQ row.value with
        | some q => .num q
        | none => .str row.value
      else .str row.value

/-! ## Cache invalidation and the control-plane mutation handler

`EvaluationService.invalidateCache` wraps the Redis delete in
`try { … } catch (error) { logger.error(…) }` — the catch block only logs,
so the method resolves normally whatever the delete outcome was.  The
`PUT /api/flags/:flagKey/environments/:environment` handler awaits the
store mutation, then `invalidateCache`, then replies 200 with the updated
config; store errors map to 404 (`not found` in the message) or 500. -/

/-- Outcome classification of `FlagRepository.updateFlagConfig` as thrown
to the handler. -/
inductive StoreOutcome where
  | ok (config : FlagConfig)
  | notFound
  | failed
deriving DecidableEq, Repr

/-- `EvaluationService.invalidateCache` applied to the outcome of its
Redis delete: the internal catch swallows the error, so the method always
resolves. -/
def invalidateCacheStep (delOutcome : Except Unit Unit) : Except Unit Unit :=
  match delOutcome with
  | .ok _ => .ok ()
  | .error _ => .ok ()

/-- An HTTP reply of the mutation handler: status code and whether the
body is the success payload. -/
structure MutationReply where
  status : Nat
  claimsSuccess : Bool
deriving DecidableEq, Repr

/-- The `PUT /api/flags/:flagKey/environments/:environment` handler:
environment whitelist check, store mutation, cache invalidation, then the
success reply.  `storeOutcome` and `cacheDelOutcome` are the outcomes of
the two awaited effects for this request. -/
def putFlagConfigHandler (environment : String) (storeOutcome : StoreOutcome)
    (cacheDelOutcome : Except Unit Unit) : MutationReply :=
  if ¬ (environment = "development" ∨ environment = "staging" ∨ environment = "production") then
    { status := 400, claimsSuccess := false }
  else
    match storeOutcome with
    | .notFound => { status := 404, claimsSuccess := false }
    | .failed => { status := 500, claimsSuccess := false }
    | .ok _ =>
      match invalidateCacheStep cacheDelOutcome with
      | .error _ => { status := 500, claimsSuccess := false }
      | .ok _ => { status := 200, claimsSuccess := true }

/-! ## Flag repository: `updateFlagConfig`

Embedded as a pure transformer on the (flag, environment) row state.  The
source builds the `UPDATE` statement from the scalar keys present in the
patch; the delete-and-reinsert of `rollout_rules` sits inside the
`if (updateFields.length > 0)` block, and an empty field list throws
`'No fields to update'`, rolling the transaction back. -/

/-- A stored `rollout_rules` row (ids and timestamps omitted). -/
structure StoredRuleRow where
  rule_type : String
  attribute_name : Option String
  operator : Option String
  attribute_value : Option String
  percentage : Option Int
  variant_key : Option String
  priority : Int
deriving DecidableEq, Repr

/-- One element of the `rules` array of an update patch. -/
structure RulePatch where
  rule_type : String
  attribute_name : Option String
  operator : Option String
  attribute_value : Option String
  percentage : Option Int
  variant_key : Option String
  priority : Option Int
deriving DecidableEq, Repr

/-- `UpdateFlagConfigRequest`: `none` = key absent from the patch. -/
structure UpdatePatch where
  is_enabled : Option Bool
  default_variant : Option String
  rollout_percentage : Option Int
  config_data : Option String
  rules : Option (List RulePatch)
deriving DecidableEq, Repr

/-- The mutable state of one (flag, environment): the `flag_configs` row
and its `rollout_rules`. -/
structure ConfigState where
  is_enabled : Bool
  default_variant : String
  rollout_percentage : Int
  config_data : String
  rules : List StoredRuleRow
deriving DecidableEq, Repr

/-- The JavaScript expression `x || null` on an optional string: an empty
string collapses to `null`. -/
def jsOrNullStr (o : Option String) : Option String :=
  match o with
  | some "" => none
  | x => x

/-- The `INSERT INTO rollout_rules` value mapping: `|| null` on the
optional columns (so falsy values become NULL, including a `0`
percentage), `priority || 100` for the priority. -/
def insertRuleRow (p : RulePatch) : StoredRuleRow :=
  { rule_type := p.rule_type
    attribute_name := jsOrNullStr p.attribute_name
    operator := jsOrNullStr p.operator
    attribute_value := jsOrNullStr p.attribute_value
    percentage := match p.percentage with | some 0 => none | x => x
    variant_key := jsOrNullStr p.variant_key
    priority := match p.priority with | some 0 => 100 | some n => n | none => 100 }

/-- `FlagRepository.updateFlagConfig` on one (flag, environment) state.
`found` is whether the flag/config lookup returned a row.  An `error`
outcome is a thrown exception after `ROLLBACK`: the stored state is
unchanged. -/
def updateFlagConfig (found : Bool) (st : ConfigState) (update : UpdatePatch) :
    Except String ConfigState :=
  if ¬ found then .error "Flag config not found"
  else
    let scalarPresent := update.is_enabled.isSome || update.default_variant.isSome ||
      update.rollout_percentage.isSome || update.config_data.isSome
    if scalarPresent then
      let st1 : ConfigState :=
        { st with
          is_enabled := update.is_enabled.getD st.is_enabled
          default_variant := update.default_variant.getD st.default_variant
          rollout_percentage := update.rollout_percentage.getD st.rollout_percentage
          config_data := update.config_data.getD st.config_data }
      match update.rules with
      | some rs => .ok { st1 with rules := rs.map insertRuleRow }
      | none => .ok st1
    else .error "No fields to update"

/-! ## Concrete fixtures used by the claim theorems -/

/-- A user context with user id `u1` and no attributes. -/
def userU1 : UserContext :=
  { user_id := some "u1", attributes := [], custom_attributes := [] }

/-- An anonymous user context. -/
def userNone : UserContext :=
  { user_id := none, attributes := [], custom_attributes := [] }

/-- A boolean flag row. -/
def boolFlag : FeatureFlag :=
  { id := "flag-1", key := "dark_mode", name := "Dark Mode"
    flag_type := "boolean", is_active := true }

/-- The `true` variant at weight 50. -/
def variantTrue : FlagVariant :=
  { id := "v-t", flag_id := "flag-1", key := "true", value := "true", weight := 50 }

/-- The `false` variant at weight 50. -/
def variantFalse : FlagVariant :=
  { id := "v-f", flag_id := "flag-1", key := "false", value := "false", weight := 50 }

/-- A config for `flag-1` with the given enabled bit and rollout
percentage; default variant `false`. -/
def configAt (enabled : Bool) (p : Int) : FlagConfig :=
  { id := "cfg-1", flag_id := "flag-1", environment_id := "env-1"
    is_enabled := enabled, default_variant := "false"
    rollout_percentage := p, config_data := "" }

/-- A `user_id` rule targeting `u1` with variant override `false`. -/
def ruleU1False : RolloutRule :=
  { id := "rule-1", flag_config_id := "cfg-1", rule_type := "user_id"
    attribute_name := none, operator := none, attribute_value := some "u1"
    percentage := none, variant_key := some "false", priority := 10 }

/-- A non-matching `user_id` rule at priority 5. -/
def ruleNoMatchA : RolloutRule :=
  { id := "rule-a", flag_config_id := "cfg-1", rule_type := "user_id"
    attribute_name := none, operator := none, attribute_value := some "nobody"
    percentage := none, variant_key := none, priority := 5 }

/-- A non-matching `user_id` rule at priority 1. -/
def ruleNoMatchB : RolloutRule :=
  { id := "rule-b", flag_config_id := "cfg-1", rule_type := "user_id"
    attribute_name := none, operator := none, attribute_value := some "nobody"
    percentage := none, variant_key := none, priority := 1 }

/-- Enabled config at rollout 0, no rules. -/
def ctxZeroRollout : EvaluationContext :=
  { user_context := userU1, flag_config := configAt true 0
    rules := [], variants := [variantTrue, variantFalse], environment := "production" }

/-- Disabled config carrying rules, variants and a high rollout. -/
def ctxDisabled : EvaluationContext :=
  { user_context := userU1, flag_config := configAt false 80
    rules := [ruleU1False], variants := [variantTrue, variantFalse]
    environment := "production" }

/-- Enabled config whose rules arrive out of priority order. -/
def ctxUnsorted : EvaluationContext :=
  { user_context := userU1, flag_config := configAt true 0
    rules := [ruleNoMatchA, ruleNoMatchB]
    variants := [variantTrue, variantFalse], environment := "production" }

/-- Snapshot with the matching `user_id` rule, for the typed-translation
comparison. -/
def snapRuleMatch : Snapshot :=
  { flag := boolFlag, config := configAt true 0
    variants := [variantTrue, variantFalse], rules := [ruleU1False] }

/-- Infrastructure in which every cache read hits the given snapshot. -/
def infraHit (snap : Snapshot) : Infra :=
  { cacheGet := fun _ => some snap, storeGet := fun _ _ => .ok none }

/-- Infrastructure in which the cache misses and the store is
unreachable. -/
def infraFault : Infra :=
  { cacheGet := fun _ => none, storeGet := fun _ _ => .error () }

/-- Infrastructure in which the cache misses and the store has no row. -/
def infraEmpty : Infra :=
  { cacheGet := fun _ => none, storeGet := fun _ _ => .ok none }

/-- A request for `dark_mode` by `u1` with the given default. -/
def reqDark (dv : Option EvalValue) : EvaluationRequest :=
  { flag_key := "dark_mode", user_context := userU1
    environment := none, default_value := dv }

/-- A second well-formed request, for the batch fixture. -/
def reqOther : EvaluationRequest :=
  { flag_key := "other_flag", user_context := userNone
    environment := some "staging", default_value := some (.bool true) }

/-- A stored rule row predating an update. -/
def storedRuleOld : StoredRuleRow :=
  { rule_type := "user_id", attribute_name := none, operator := none
    attribute_value := some "olduser", percentage := none
    variant_key := none, priority := 10 }

/-- A (flag, environment) state carrying one old rule. -/
def configState0 : ConfigState :=
  { is_enabled := false, default_variant := "false", rollout_percentage := 0
    config_data := "", rules := [storedRuleOld] }

/-- A replacement rule in a patch. -/
def rulePatch1 : RulePatch :=
  { rule_type := "attribute", attribute_name := some "country"
    operator := some "equals", attribute_value := some "US"
    percentage := none, variant_key := some "true", priority := some 10 }

/-- A patch containing only `rules`. -/
def patchRulesOnly : UpdatePatch :=
  { is_enabled := none, default_variant := none, rollout_percentage := none
    config_data := none, rules := some [rulePatch1] }

/-- A patch containing `is_enabled` and `rules`. -/
def patchEnabledAndRules : UpdatePatch :=
  { is_enabled := some true, default_variant := none, rollout_percentage := none
    config_data := none, rules := some [rulePatch1] }

/-! ## Shared helper lemmas -/

/-- Stable insertion produces a permutation of consing. -/
theorem insertByPriority_perm (x : RolloutRule) (l : List RolloutRule) :
    (RuleEngine.insertByPriority x l).Perm (x :: l) := by
  induction l with
  | nil => simp [RuleEngine.insertByPriority]
  | cons y ys ih =>
    simp only [RuleEngine.insertByPriority]
    split
    · exact List.Perm.refl _
    · exact (ih.cons y).trans (List.Perm.swap x y ys)

/-- The rule sort permutes the rules. -/
theorem sortRules_perm (l : List RolloutRule) :
    (RuleEngine.sortRules l).Perm l := by
  induction l with
  | nil => simp [RuleEngine.sortRules]
  | cons x xs ih =>
    exact (insertByPriority_perm x (RuleEngine.sortRules xs)).trans (ih.cons x)

/-! ## Claim theorems -/

/-- C5: the fingerprint is deterministic — equal `(user_id, salt)` inputs
give equal hashes, the hash being a pure function of the MD5 digest of
`user_id ++ ":" ++ salt` — and the derived bucket `hash % 100` always lies
in `[0, 99]`. -/
theorem bucket_deterministic_and_in_range (userId salt : String) :
    generateUserHash userId salt = generateUserHash userId salt ∧
    generateUserHash userId salt % 100 < 100 :=
  ⟨rfl, Nat.mod_lt _ (by norm_num)⟩

/-- C6: whenever `config.enabled` is false the rule engine returns the
decision `{enabled := false, variant := config.default_variant, reason :=
"flag_disabled"}` and leaves the context untouched, regardless of rules,
variants, rollout percentage or user context. -/
theorem disabled_dominates (r : ℚ) (ctx : EvaluationContext)
    (h : ctx.flag_config.is_enabled = false) :
    (RuleEngine.evaluateFlag r ctx).1 =
      { enabled := false, variant := ctx.flag_config.default_variant
        reason := "flag_disabled" } ∧
    (RuleEngine.evaluateFlag r ctx).2 = ctx := by
  simp [RuleEngine.evaluateFlag, h]

/-- Witness for C6 at a disabled config that carries a matching rule,
variants and an 80% rollout. -/
theorem disabled_dominates_witness :
    ctxDisabled.flag_config.is_enabled = false ∧
    (RuleEngine.evaluateFlag 0 ctxDisabled).1 =
      { enabled := false, variant := "false", reason := "flag_disabled" } := by
  refine ⟨by decide, ?_⟩
  have h := disabled_dominates 0 ctxDisabled (by decide)
  exact h.1.trans (by decide)

/-- C3 (code bug): when the store mutation of
`PUT /api/flags/:flagKey/environments/:environment` succeeds but the Redis
delete inside the cache-invalidation step fails, the handler still replies
200 with the success payload — `invalidateCache` swallows the error, so
the mutation claims success with the stale cache left in place. -/
theorem mutation_success_despite_invalidation_failure :
    putFlagConfigHandler "production" (.ok (configAt true 50)) (.error ()) =
      { status := 200, claimsSuccess := true } := by decide

/-- C2 counterexample: on an enabled config with rollout percentage 0 and
no rules, the decision's reason is `not_in_rollout`, not the
`zero_rollout` the claim states — `evaluateFlag` discards the reason of
the inner rollout check. -/
theorem zero_rollout_reason_counterexample :
    (RuleEngine.evaluateFlag 0 ctxZeroRollout).1 =
      { enabled := false, variant := "false", reason := "not_in_rollout" } ∧
    (RuleEngine.evaluateFlag 0 ctxZeroRollout).1.reason ≠ "zero_rollout" := by
  decide

/-- C9 counterexample: `evaluateFlag` is not pure in its context — the
in-place `rules.sort` reorders the caller's rules array, here from
priorities `[5, 1]` to `[1, 5]`. -/
theorem rule_sort_mutates_context :
    (RuleEngine.evaluateFlag 0 ctxUnsorted).2 ≠ ctxUnsorted ∧
    (RuleEngine.evaluateFlag 0 ctxUnsorted).2.rules = [ruleNoMatchB, ruleNoMatchA] ∧
    ctxUnsorted.rules = [ruleNoMatchA, ruleNoMatchB] := by
  decide

/-- C7: rollout inclusion is monotone in the percentage — for a fixed user
and flag id, a user admitted by `evaluatePercentageRollout` at percentage
`p` is admitted at every `p'` with `p ≤ p' ≤ 100`. -/
theorem rollout_monotone (u : UserContext) (flagId : String) (p p' : Int)
    (hmatch : (RuleEngine.evaluatePercentageRollout p u flagId).matched = true)
    (hle : p ≤ p') (hub : p' ≤ 100) :
    (RuleEngine.evaluatePercentageRollout p' u flagId).matched = true := by
  unfold RuleEngine.evaluatePercentageRollout at hmatch ⊢
  by_cases hp0 : p = 0
  · simp [hp0] at hmatch
  · rw [if_neg hp0] at hmatch
    by_cases hp100 : p = 100
    · have hp' : p' = 100 := le_antisymm hub (hp100 ▸ hle)
      have hne : ¬ p' = 0 := by omega
      rw [if_neg hne, if_pos hp']
    · rw [if_neg hp100] at hmatch
      have ht : ((generateUserHash (u.user_id.getD "anonymous") flagId : Int) % 100) < p :=
        of_decide_eq_true hmatch
      have hb : (0 : Int) ≤ (generateUserHash (u.user_id.getD "anonymous") flagId : Int) % 100 :=
        Int.emod_nonneg _ (by norm_num)
      have hne : ¬ p' = 0 := by omega
      rw [if_neg hne]
      by_cases hp'100 : p' = 100
      · rw [if_pos hp'100]
      · rw [if_neg hp'100]
        exact decide_eq_true (by omega)

/-- Witness for C7: user `u1` on flag id `flag-1` buckets at 60, so they
are admitted at 61% and hence at 90%. -/
theorem rollout_monotone_witness :
    (RuleEngine.evaluatePercentageRollout 61 userU1 "flag-1").matched = true ∧
    (61 : Int) ≤ 90 ∧ (90 : Int) ≤ 100 ∧
    (RuleEngine.evaluatePercentageRollout 90 userU1 "flag-1").matched = true := by
  refine ⟨by decide, by decide, by decide, ?_⟩
  exact rollout_monotone userU1 "flag-1" 61 90 (by decide) (by decide) (by decide)

/-- C9 (amended): `evaluateFlag` leaves every field of the context
unchanged except the rules array, which — when the flag is enabled, so the
in-place `rules.sort` runs — is replaced by its stable sort by ascending
priority; in every case the final rules array is a permutation of the
original. -/
theorem evaluateFlag_context_effect (r : ℚ) (ctx : EvaluationContext) :
    (RuleEngine.evaluateFlag r ctx).2 =
      (if ctx.flag_config.is_enabled then
        { ctx with rules := RuleEngine.sortRules ctx.rules } else ctx) ∧
    ((RuleEngine.evaluateFlag r ctx).2.rules).Perm ctx.rules ∧
    (RuleEngine.evaluateFlag r ctx).2.user_context = ctx.user_context ∧
    (RuleEngine.evaluateFlag r ctx).2.flag_config = ctx.flag_config ∧
    (RuleEngine.evaluateFlag r ctx).2.variants = ctx.variants ∧
    (RuleEngine.evaluateFlag r ctx).2.environment = ctx.environment := by
  have hmain : (RuleEngine.evaluateFlag r ctx).2 =
      (if ctx.flag_config.is_enabled then
        { ctx with rules := RuleEngine.sortRules ctx.rules } else ctx) := by
    by_cases h : ctx.flag_config.is_enabled
    · simp only [RuleEngine.evaluateFlag, h, not_true_eq_false, if_false, if_true]
      cases hm : RuleEngine.findFirstMatch ctx.user_context ctx.variants
          (RuleEngine.sortRules ctx.rules) with
      | some res => simp
      | none =>
        cases hcond : (RuleEngine.evaluatePercentageRollout ctx.flag_config.rollout_percentage
          ctx.user_context ctx.flag_config.flag_id).matched <;> simp [hcond]
    · simp [RuleEngine.evaluateFlag, h]
  refine ⟨hmain, ?_, ?_, ?_, ?_, ?_⟩ <;> rw [hmain] <;>
    by_cases h : ctx.flag_config.is_enabled <;> simp [h, sortRules_perm]

/-- C2 (amended): on an enabled config with no matching rule the
enabled/variant structure of the claim holds — rollout 0 disables with the
default variant, rollout 100 enables with the weight-selected variant, and
for percentages strictly between, `bucket < percentage` decides — but the
final decision's reason is `percentage_rollout` on inclusion and
`not_in_rollout` otherwise; the claim's tags `zero_rollout`,
`full_rollout`, `rollout_match` and `rollout_no_match` appear only on the
inner `evaluatePercentageRollout` result, which `evaluateFlag` discards. -/
theorem rollout_decision (r : ℚ) (ctx : EvaluationContext)
    (henabled : ctx.flag_config.is_enabled = true)
    (hnomatch : RuleEngine.findFirstMatch ctx.user_context ctx.variants
      (RuleEngine.sortRules ctx.rules) = none) :
    (ctx.flag_config.rollout_percentage = 0 →
      (RuleEngine.evaluateFlag r ctx).1 =
        { enabled := false, variant := ctx.flag_config.default_variant
          reason := "not_in_rollout" } ∧
      (RuleEngine.evaluatePercentageRollout ctx.flag_config.rollout_percentage
        ctx.user_context ctx.flag_config.flag_id).reason = "zero_rollout") ∧
    (ctx.flag_config.rollout_percentage = 100 →
      (RuleEngine.evaluateFlag r ctx).1 =
        { enabled := true, variant := (RuleEngine.selectVariantByWeight r ctx.variants).key
          reason := "percentage_rollout" } ∧
      (RuleEngine.evaluatePercentageRollout ctx.flag_config.rollout_percentage
        ctx.user_context ctx.flag_config.flag_id).reason = "full_rollout") ∧
    (ctx.flag_config.rollout_percentage ≠ 0 → ctx.flag_config.rollout_percentage ≠ 100 →
      (((generateUserHash (ctx.user_context.user_id.getD "anonymous")
            ctx.flag_config.flag_id : Int) % 100 < ctx.flag_config.rollout_percentage →
        (RuleEngine.evaluateFlag r ctx).1 =
          { enabled := true, variant := (RuleEngine.selectVariantByWeight r ctx.variants).key
            reason := "percentage_rollout" } ∧
        (RuleEngine.evaluatePercentageRollout ctx.flag_config.rollout_percentage
          ctx.user_context ctx.flag_config.flag_id).reason = "rollout_match") ∧
      (¬ (generateUserHash (ctx.user_context.user_id.getD "anonymous")
            ctx.flag_config.flag_id : Int) % 100 < ctx.flag_config.rollout_percentage →
        (RuleEngine.evaluateFlag r ctx).1 =
          { enabled := false, variant := ctx.flag_config.default_variant
            reason := "not_in_rollout" } ∧
        (RuleEngine.evaluatePercentageRollout ctx.flag_config.rollout_percentage
          ctx.user_context ctx.flag_config.flag_id).reason = "rollout_no_match"))) := by
  have hred : (RuleEngine.evaluateFlag r ctx).1 =
      (if (RuleEngine.evaluatePercentageRollout ctx.flag_config.rollout_percentage
            ctx.user_context ctx.flag_config.flag_id).matched = true then
        ({ enabled := true, variant := (RuleEngine.selectVariantByWeight r ctx.variants).key
           reason := "percentage_rollout" } : Decision)
      else
        { enabled := false, variant := ctx.flag_config.default_variant
          reason := "not_in_rollout" }) := by
    simp only [RuleEngine.evaluateFlag, henabled, not_true_eq_false, if_false, hnomatch]
    by_cases hc : (RuleEngine.evaluatePercentageRollout ctx.flag_config.rollout_percentage
        ctx.user_context ctx.flag_config.flag_id).matched = true <;> simp [hc]
  refine ⟨?_, ?_, ?_⟩
  · intro hp
    have hroll : RuleEngine.evaluatePercentageRollout ctx.flag_config.rollout_percentage
        ctx.user_context ctx.flag_config.flag_id =
        { matched := false, variant_key := none, reason := "zero_rollout", rule_id := none } := by
      unfold RuleEngine.evaluatePercentageRollout
      rw [if_pos hp]
    rw [hred, hroll]
    exact ⟨by simp, rfl⟩
  · intro hp
    have hroll : RuleEngine.evaluatePercentageRollout ctx.flag_config.rollout_percentage
        ctx.user_context ctx.flag_config.flag_id =
        { matched := true, variant_key := none, reason := "full_rollout", rule_id := none } := by
      unfold RuleEngine.evaluatePercentageRollout
      rw [if_neg (by omega), if_pos hp]
    rw [hred, hroll]
    exact ⟨by simp, rfl⟩
  · intro hp0 hp100
    have hroll : RuleEngine.evaluatePercentageRollout ctx.flag_config.rollout_percentage
        ctx.user_context ctx.flag_config.flag_id =
        { matched := decide ((generateUserHash (ctx.user_context.user_id.getD "anonymous")
              ctx.flag_config.flag_id : Int) % 100 < ctx.flag_config.rollout_percentage)
          variant_key := none
          reason := if (generateUserHash (ctx.user_context.user_id.getD "anonymous")
              ctx.flag_config.flag_id : Int) % 100 < ctx.flag_config.rollout_percentage then
              "rollout_match" else "rollout_no_match"
          rule_id := none } := by
      unfold RuleEngine.evaluatePercentageRollout
      rw [if_neg hp0, if_neg hp100]
    constructor
    · intro hlt
      rw [hred, hroll]
      exact ⟨by simp [hlt], by simp [hlt]⟩
    · intro hge
      rw [hred, hroll]
      exact ⟨by simp [hge], by simp [hge]⟩

/-- Witness for C2 at the zero-rollout context: the decision disables with
the default variant and reason `not_in_rollout`, while the inner rollout
check reports `zero_rollout`. -/
theorem rollout_decision_witness :
    ctxZeroRollout.flag_config.is_enabled = true ∧
    (RuleEngine.evaluateFlag 0 ctxZeroRollout).1 =
      { enabled := false, variant := "false", reason := "not_in_rollout" } ∧
    (RuleEngine.evaluatePercentageRollout 0 userU1 "flag-1").reason = "zero_rollout" := by
  have h := (rollout_decision 0 ctxZeroRollout (by decide) (by decide)).1 (by decide)
  exact ⟨by decide, h.1.trans (by decide), h.2⟩

/-- Every branch of the evaluation service echoes the request's flag key
in the response. -/
theorem evaluateFlagService_flag_key (r : ℚ) (infra : Infra)
    (req : EvaluationRequest) :
    (evaluateFlagService r infra req).flag_key = req.flag_key := by
  simp only [evaluateFlagService]
  cases fetchSnapshot infra req.flag_key (req.environment.getD "production") with
  | error e => rfl
  | ok o =>
    cases o with
    | none => rfl
    | some snap =>
      by_cases hv : RuleEngine.validateContext (serviceContext req snap) <;> simp [hv]

/-- Batch evaluation preserves length. -/
theorem evaluateBatchAux_length (draws : Nat → ℚ) (infra : Infra) :
    ∀ (k : Nat) (l : List EvaluationRequest),
      (evaluateBatchAux draws infra k l).length = l.length := by
  intro k l
  induction l generalizing k with
  | nil => rfl
  | cons x xs ih => simp [evaluateBatchAux, ih]

/-- The `i`-th batch result is the evaluation of the `i`-th request. -/
theorem evaluateBatchAux_get (draws : Nat → ℚ) (infra : Infra) :
    ∀ (l : List EvaluationRequest) (k i : Nat) (req : EvaluationRequest),
      l.get? i = some req →
      (evaluateBatchAux draws infra k l).get? i =
        some (evaluateFlagService (draws (k + i)) infra req) := by
  intro l
  induction l with
  | nil => intro k i req h; simp at h
  | cons x xs ih =>
    intro k i req h
    cases i with
    | zero =>
      simp only [List.get?] at h
      cases h
      simp [evaluateBatchAux]
    | succ n =>
      simp only [List.get?] at h
      have hv := ih (k + 1) n req h
      have harg : k + 1 + n = k + (n + 1) := by omega
      rw [harg] at hv
      simpa [evaluateBatchAux, List.get?] using hv

/-- C10: for every batch of at most 50 requests each carrying a flag key,
the batch endpoint replies 200 with a results array of the same length in
which the `i`-th result is the evaluation of the `i`-th request and echoes
its flag key. -/
theorem batch_componentwise (draws : Nat → ℚ) (infra : Infra)
    (requests : List EvaluationRequest)
    (h50 : requests.length ≤ 50)
    (hwf : ∀ req ∈ requests, req.flag_key ≠ "") :
    (postEvaluateBatch draws infra requests).1 = 200 ∧
    (postEvaluateBatch draws infra requests).2 =
      some (evaluateBatch draws infra requests) ∧
    (evaluateBatch draws infra requests).length = requests.length ∧
    ∀ i req, requests.get? i = some req →
      (evaluateBatch draws infra requests).get? i =
        some (evaluateFlagService (draws i) infra req) ∧
      (evaluateFlagService (draws i) infra req).flag_key = req.flag_key := by
  have hany : requests.any (fun req => req.flag_key = "") = false := by
    rw [List.any_eq_false]
    intro req hreq
    simpa using hwf req hreq
  have hnot : ¬ requests.length > 50 := by omega
  refine ⟨?_, ?_, ?_, ?_⟩
  · simp [postEvaluateBatch, hnot, hany]
  · simp [postEvaluateBatch, hnot, hany]
  · exact evaluateBatchAux_length draws infra 0 requests
  · intro i req h
    refine ⟨?_, evaluateFlagService_flag_key _ _ _⟩
    have hv := evaluateBatchAux_get draws infra requests 0 i req h
    simpa [evaluateBatch] using hv

/-- Witness for C10 on a two-element batch: status 200, two results, and
the second result is the evaluation of the second request with its flag
key echoed. -/
theorem batch_componentwise_witness :
    (postEvaluateBatch (fun _ => 0) infraEmpty
      [reqDark (some (.bool false)), reqOther]).1 = 200 ∧
    (evaluateBatch (fun _ => 0) infraEmpty
      [reqDark (some (.bool false)), reqOther]).length = 2 ∧
    (evaluateBatch (fun _ => 0) infraEmpty
      [reqDark (some (.bool false)), reqOther]).get? 1 =
      some (evaluateFlagService 0 infraEmpty reqOther) ∧
    (evaluateFlagService 0 infraEmpty reqOther).flag_key = "other_flag" := by
  have h := batch_componentwise (fun _ => 0) infraEmpty
    [reqDark (some (.bool false)), reqOther] (by decide) (by decide)
  have h4 := h.2.2.2 1 reqOther (by rfl)
  exact ⟨h.1, by simpa using h.2.2.1, h4.1, h4.2.trans (by decide)⟩

/-- C1 counterexample: on a boolean flag whose matching `user_id` rule
overrides the variant to `false`, the decision is `{enabled := true,
variant := "false"}`; the spec's typed translation gives `false`
(`variant == "true"` fails), but the service's response value is `true` —
`createEvaluationResponse` is handed `result.enabled`, never the typed
translation. -/
theorem typed_translation_counterexample :
    (evaluateFlagService 0 (infraHit snapRuleMatch) (reqDark (some (.bool false)))).value =
      .bool true ∧
    specTypedValue snapRuleMatch.flag.flag_type (.bool false)
      ((RuleEngine.evaluateFlag 0
        (serviceContext (reqDark (some (.bool false))) snapRuleMatch)).1)
      snapRuleMatch.variants = .bool false ∧
    (EvalValue.bool true) ≠ (EvalValue.bool false) := by
  decide

/-- C1 (amended): for every evaluation that reaches the rule engine (the
snapshot was fetched and the context is valid) the response's value is the
raw boolean `Decision.enabled`, whatever the flag type; the chosen variant
is surfaced only as `variant_key`, and no typed translation of the variant
value is performed. -/
theorem engine_value_is_enabled_bit (r : ℚ) (infra : Infra)
    (req : EvaluationRequest) (snap : Snapshot)
    (hfetch : fetchSnapshot infra req.flag_key (req.environment.getD "production") =
      .ok (some snap))
    (hvalid : RuleEngine.validateContext (serviceContext req snap) = true) :
    evaluateFlagService r infra req =
      { flag_key := req.flag_key
        value := .bool ((RuleEngine.evaluateFlag r (serviceContext req snap)).1).enabled
        variant_key := ((RuleEngine.evaluateFlag r (serviceContext req snap)).1).variant
        reason := ((RuleEngine.evaluateFlag r (serviceContext req snap)).1).reason } := by
  simp only [evaluateFlagService, hfetch, hvalid, not_true_eq_false, if_false]

/-- Witness for C1 at the rule-match snapshot: the value is the enabled
bit `true` while the variant key is `false`. -/
theorem engine_value_is_enabled_bit_witness :
    fetchSnapshot (infraHit snapRuleMatch) "dark_mode" "production" =
      .ok (some snapRuleMatch) ∧
    evaluateFlagService 0 (infraHit snapRuleMatch) (reqDark (some (.bool true))) =
      { flag_key := "dark_mode", value := .bool true, variant_key := "false"
        reason := "user_id_match" } := by
  refine ⟨by decide, ?_⟩
  have h := engine_value_is_enabled_bit 0 (infraHit snapRuleMatch)
    (reqDark (some (.bool true))) snapRuleMatch (by decide) (by decide)
  exact h.trans (by decide)

/-- C4 counterexample: with the store unreachable and a caller default of
`0`, the catch-all's `request.default_value || false` collapses the falsy
default to `false`, so the response value is not the caller's default. -/
theorem fault_default_counterexample :
    (evaluateFlagService 0 infraFault (reqDark (some (.num 0)))).value = .bool false ∧
    (reqDark (some (.num 0))).default_value = some (.num 0) ∧
    (EvalValue.bool false) ≠ (EvalValue.num 0) := by
  decide

/-- C4 (amended): a well-formed request (non-empty `flag_key`) is always
answered 200 — never a 5xx — and on an infrastructure fault the response
value is `default_value || false`: the caller's default when it is truthy,
`false` otherwise, which preserves every boolean default. -/
theorem evaluate_fault_degrades (r : ℚ) (infra : Infra) (req : EvaluationRequest)
    (hwf : req.flag_key ≠ "") :
    (postEvaluate r infra req).1 = 200 ∧
    (fetchSnapshot infra req.flag_key (req.environment.getD "production") = .error () →
      (postEvaluate r infra req).2 = some
        { flag_key := req.flag_key, value := jsOrFalse req.default_value
          variant_key := "default", reason := "evaluation_error" }) ∧
    (∀ b, req.default_value = some (.bool b) → jsOrFalse req.default_value = .bool b) := by
  refine ⟨by simp [postEvaluate, hwf], ?_, ?_⟩
  · intro hf
    simp [postEvaluate, hwf, evaluateFlagService, hf]
  · intro b hb
    cases b <;> simp [hb, jsOrFalse, jsTruthy]

/-- Witness for C4: boolean default `true` against a faulted store comes
back unchanged with reason `evaluation_error` under a 200 status. -/
theorem evaluate_fault_degrades_witness :
    (postEvaluate 0 infraFault (reqDark (some (.bool true)))).1 = 200 ∧
    (postEvaluate 0 infraFault (reqDark (some (.bool true)))).2 = some
      { flag_key := "dark_mode", value := .bool true, variant_key := "default"
        reason := "evaluation_error" } := by
  have h := evaluate_fault_degrades 0 infraFault (reqDark (some (.bool true))) (by decide)
  refine ⟨h.1, ?_⟩
  have h2 := h.2.1 (by rfl)
  exact h2.trans (by decide)

/-- C8 counterexample: a patch containing only `rules` leaves
`updateFields` empty, so `updateFlagConfig` throws `No fields to update`
and rolls back — the existing rules are not deleted or replaced. -/
theorem rules_only_patch_counterexample :
    updateFlagConfig true configState0 patchRulesOnly =
      .error "No fields to update" ∧
    updateFlagConfig true configState0 patchRulesOnly ≠
      .ok { configState0 with rules := [insertRuleRow rulePatch1] } := by
  decide

/-- C8 (amended): when at least one scalar key (`is_enabled`,
`default_variant`, `rollout_percentage`, `config_data`) is present,
`updateFlagConfig` commits exactly the present keys and, when `rules` is
also present, replaces the stored rules wholesale within the same
transaction; when no scalar key is present it fails with
`No fields to update` (even if `rules` is present), and a missing
(flag, environment) pair fails with `Flag config not found`. -/
theorem updateFlagConfig_patch_semantics (st : ConfigState) (u : UpdatePatch) :
    ((u.is_enabled.isSome || u.default_variant.isSome || u.rollout_percentage.isSome ||
        u.config_data.isSome) = true →
      updateFlagConfig true st u = .ok
        { is_enabled := u.is_enabled.getD st.is_enabled
          default_variant := u.default_variant.getD st.default_variant
          rollout_percentage := u.rollout_percentage.getD st.rollout_percentage
          config_data := u.config_data.getD st.config_data
          rules := (u.rules.map (fun rs => rs.map insertRuleRow)).getD st.rules }) ∧
    ((u.is_enabled.isSome || u.default_variant.isSome || u.rollout_percentage.isSome ||
        u.config_data.isSome) = false →
      updateFlagConfig true st u = .error "No fields to update") ∧
    updateFlagConfig false st u = .error "Flag config not found" := by
  refine ⟨?_, ?_, by simp [updateFlagConfig]⟩
  · intro hs
    simp only [updateFlagConfig, not_true_eq_false, if_false, hs, if_true]
    cases hr : u.rules with
    | none => simp
    | some rs => simp
  · intro hs
    simp [updateFlagConfig, hs]

/-- Witness for C8 with `is_enabled` and `rules` both present: the enabled
bit is set, the untouched keys keep their values, and the stored rules are
replaced by the patch's rules. -/
theorem updateFlagConfig_patch_semantics_witness :
    updateFlagConfig true configState0 patchEnabledAndRules = .ok
      { is_enabled := true, default_variant := "false", rollout_percentage := 0
        config_data := "", rules := [insertRuleRow rulePatch1] } := by
  have h := (updateFlagConfig_patch_semantics configState0 patchEnabledAndRules).1 (by decide)
  exact h.trans (by decide)
